import Mathlib

/-!
Verification of the resilient event-delivery layer of an event-driven
e-commerce microservice system: circuit breaker, retry handler with
exponential backoff, message-queue publish/consume/close behaviour, and
the order/inventory/notification state machines.

Each definition is a shallow embedding of the corresponding TypeScript
function; machine integers are modelled as `Nat`/`Int`, thrown exceptions
as `Except`/explicit result types, and wall-clock time as an explicit
`now : Int` parameter (the value of `Date.now()` at the call).
-/

namespace ECommerce

/-! ## Circuit breaker (`src/shared/utils/circuit-breaker.ts`) -/

inductive CBStatus
  | CLOSED
  | OPEN
  | HALF_OPEN
deriving DecidableEq, Repr

/-- State record `CircuitBreakerState` from the shared types. -/
structure CircuitBreakerState where
  status : CBStatus
  failureCount : Nat
  lastFailureTime : Int
  threshold : Nat
  timeout : Nat
deriving DecidableEq, Repr

/-- The state built by the `CircuitBreaker` constructor. -/
def initCB (failureThreshold : Nat := 5) (timeoutMs : Nat := 60000) : CircuitBreakerState :=
  { status := .CLOSED
    failureCount := 0
    lastFailureTime := 0
    threshold := failureThreshold
    timeout := timeoutMs }

/-- Embeds `CircuitBreaker.shouldAttemptReset`:
`Date.now() - lastFailureTime >= timeout`. -/
def shouldAttemptReset (s : CircuitBreakerState) (now : Int) : Bool :=
  (s.timeout : Int) ≤ now - s.lastFailureTime

/-- Embeds `CircuitBreaker.onSuccess`: reset failure count, close the circuit. -/
def onSuccess (s : CircuitBreakerState) : CircuitBreakerState :=
  { s with failureCount := 0, status := .CLOSED }

/-- Embeds `CircuitBreaker.onFailure`: increment failure count, record the
failure time, and open the circuit once the count reaches the threshold. -/
def onFailure (s : CircuitBreakerState) (now : Int) : CircuitBreakerState :=
  let s' := { s with failureCount := s.failureCount + 1, lastFailureTime := now }
  if s'.threshold ≤ s'.failureCount then { s' with status := .OPEN } else s'

/-- The guard at the top of `CircuitBreaker.execute`: in state `OPEN`,
either flip to `HALF_OPEN` (timeout elapsed) or reject the call; in any
other state let the operation through unchanged.  `none` means the call
is rejected with the "Circuit breaker is OPEN" error, `some s'` is the
state in which the wrapped operation actually runs. -/
def openGate (s : CircuitBreakerState) (now : Int) : Option CircuitBreakerState :=
  if s.status = .OPEN then
    if shouldAttemptReset s now then some { s with status := .HALF_OPEN } else none
  else some s

/-- Outcome of one `CircuitBreaker.execute` call: `rejected` is the
"Circuit breaker is OPEN" error thrown without invoking the operation,
`ok` is the operation's value passed through, `failed` is the operation's
own error rethrown after `onFailure`. -/
inductive CBResult (ε α : Type)
  | rejected
  | ok (a : α)
  | failed (e : ε)
deriving DecidableEq, Repr

/-- Embeds `CircuitBreaker.execute`.  `op` is the outcome the wrapped
operation would produce if invoked at this call. -/
def cbExecute (s : CircuitBreakerState) (now : Int) (op : Except ε α) :
    CBResult ε α × CircuitBreakerState :=
  match openGate s now with
  | none => (.rejected, s)
  | some s' =>
    match op with
    | .ok a => (.ok a, onSuccess s')
    | .error e => (.failed e, onFailure s' now)

/-- A sequence of consecutive failing `execute` calls, at the given
successive values of `Date.now()`. -/
def failMany (s : CircuitBreakerState) (nows : List Int) : CircuitBreakerState :=
  nows.foldl (fun st t => (cbExecute st t (Except.error () : Except Unit Unit)).2) s

/-! ## Retry handler (`RetryHandler` in the shared utils) -/

structure RetryConfig where
  maxAttempts : Nat
  backoffMs : Nat
  maxBackoffMs : Nat
  jitter : Bool
deriving DecidableEq, Repr

/-- Embeds `RetryHandler.calculateDelay`.  `rand` is the value
`Math.random()` returns when the delay for this attempt is computed; with
jitter disabled it is unused and the jitter factor is 1. -/
def calculateDelay (cfg : RetryConfig) (attempt : Nat) (rand : ℚ) : ℚ :=
  let baseDelay : ℚ := (cfg.backoffMs : ℚ) * 2 ^ (attempt - 1)
  let jitteredDelay : ℚ :=
    if cfg.jitter then baseDelay * ((1 : ℚ) / 2 + rand * ((1 : ℚ) / 2)) else baseDelay
  min jitteredDelay (cfg.maxBackoffMs : ℚ)

/-- The retry loop of `RetryHandler.execute`, from a given attempt number
with the given number of loop iterations left.  `op n` is the outcome the
wrapped operation produces on its `n`-th invocation (1-based); `rand n` is
the `Math.random()` draw after attempt `n`.  Returns the final outcome and
the list of delays slept, in order.  The fuel-exhausted branch corresponds
to the `throw lastError!` line after the loop, unreachable when
`maxAttempts ≥ 1`. -/
def retryGo (cfg : RetryConfig) (op : Nat → Except String α) (rand : Nat → ℚ) :
    Nat → Nat → Except String α × List ℚ
  | _, 0 => (.error "", [])
  | attempt, fuel + 1 =>
    match op attempt with
    | .ok a => (.ok a, [])
    | .error msg =>
      if attempt = cfg.maxAttempts then
        (.error ("Operation failed after " ++ toString attempt ++ " attempts: " ++ msg), [])
      else
        let d := calculateDelay cfg attempt (rand attempt)
        let rest := retryGo cfg op rand (attempt + 1) fuel
        (rest.1, d :: rest.2)

/-- Embeds `RetryHandler.execute`: the loop runs from attempt 1 for at
most `maxAttempts` iterations. -/
def retryExecute (cfg : RetryConfig) (op : Nat → Except String α) (rand : Nat → ℚ) :
    Except String α × List ℚ :=
  retryGo cfg op rand 1 cfg.maxAttempts

/-! ## Product / inventory model (the Product schema and `InventoryService`) -/

/-- One entry of `metadata.reservations`. -/
structure Reservation where
  orderId : String
  quantity : Nat
  reservedAt : Int
deriving DecidableEq, Repr

/-- The inventory-relevant fields of a `Product` document in the schema
variant whose `availableQuantity` is a virtual (computed) field.  The
schema constrains `stockQuantity` and `reservedQuantity` to be ≥ 0, so
they are `Nat`. -/
structure Product where
  stockQuantity : Nat
  reservedQuantity : Nat
  isActive : Bool
  reservations : List Reservation
deriving DecidableEq, Repr

/-- The `availableQuantity` virtual: `Math.max(0, stock - reserved)`. -/
def availableQuantity (p : Product) : Int :=
  max 0 ((p.stockQuantity : Int) - (p.reservedQuantity : Int))

/-- Embeds `ProductSchema.methods.reserveInventory`: refuse when the
requested quantity exceeds the available quantity, else add it to
`reservedQuantity` and push a reservation record. -/
def reserveInventory (p : Product) (quantity : Nat) (orderId : String) (now : Int) :
    Bool × Product :=
  if availableQuantity p < (quantity : Int) then (false, p)
  else
    (true, { p with
      reservedQuantity := p.reservedQuantity + quantity
      reservations := p.reservations ++ [⟨orderId, quantity, now⟩] })

/-- Embeds `ProductSchema.methods.releaseInventory`:
`reservedQuantity = Math.max(0, reservedQuantity - quantity)` (truncated
subtraction on `Nat`) and drop the reservation records of `orderId`. -/
def releaseInventory (p : Product) (quantity : Nat) (orderId : String) : Product :=
  { p with
    reservedQuantity := p.reservedQuantity - quantity
    reservations := p.reservations.filter (fun r => r.orderId ≠ orderId) }

/-- Embeds `ProductSchema.methods.updateStock`:
`stockQuantity = Math.max(0, newQuantity)`. -/
def updateStock (p : Product) (newQuantity : Int) : Product :=
  { p with stockQuantity := (max 0 newQuantity).toNat }

inductive InventorySvcError
  | productNotFound
  | productNotActive
deriving DecidableEq, Repr

/-- Embeds `InventoryService.reserveInventory`: error when the product is
missing or inactive, else run the schema method and publish
`inventory.reserved` only on success.  Returns the method's boolean, the
saved product, and the list of published event types. -/
def svcReserveInventory (found : Option Product) (quantity : Nat) (orderId : String)
    (now : Int) : Except InventorySvcError (Bool × Product × List String) :=
  match found with
  | none => .error .productNotFound
  | some p =>
    if p.isActive = false then .error .productNotActive
    else
      let r := reserveInventory p quantity orderId now
      .ok (r.1, r.2, if r.1 then ["inventory.reserved"] else [])

/-- The same `Product` document in the other schema variant present in the
repository, where `availableQuantity` is additionally a stored (persisted)
field. -/
structure StoredProduct where
  stockQuantity : Nat
  reservedQuantity : Nat
  availableQuantity : Int
  reservations : List Reservation
deriving DecidableEq, Repr

/-- The `ProductSchema.pre('save')` middleware of the stored-field variant:
recompute `availableQuantity = Math.max(0, stock - reserved)` on every save. -/
def preSaveRecompute (p : StoredProduct) : StoredProduct :=
  { p with availableQuantity := max 0 ((p.stockQuantity : Int) - (p.reservedQuantity : Int)) }

/-- Variant of `reserveInventory` for the stored-field schema: the guard
reads the stored `availableQuantity`, both counters are reassigned, and
`save()` runs the pre-save hook. -/
def reserveInventoryStored (p : StoredProduct) (quantity : Nat) (orderId : String)
    (now : Int) : Bool × StoredProduct :=
  if p.availableQuantity < (quantity : Int) then (false, p)
  else
    let p1 := { p with reservedQuantity := p.reservedQuantity + quantity }
    let p2 := { p1 with
      availableQuantity := max 0 ((p1.stockQuantity : Int) - (p1.reservedQuantity : Int)) }
    let p3 := { p2 with reservations := p2.reservations ++ [⟨orderId, quantity, now⟩] }
    (true, preSaveRecompute p3)

/-- Variant of `releaseInventory` for the stored-field schema. -/
def releaseInventoryStored (p : StoredProduct) (quantity : Nat) (orderId : String) :
    StoredProduct :=
  let p1 := { p with reservedQuantity := p.reservedQuantity - quantity }
  let p2 := { p1 with
    availableQuantity := max 0 ((p1.stockQuantity : Int) - (p1.reservedQuantity : Int)) }
  let p3 := { p2 with reservations := p2.reservations.filter (fun r => r.orderId ≠ orderId) }
  preSaveRecompute p3

/-- Variant of `updateStock` for the stored-field schema. -/
def updateStockStored (p : StoredProduct) (newQuantity : Int) : StoredProduct :=
  let p1 := { p with stockQuantity := (max 0 newQuantity).toNat }
  let p2 := { p1 with
    availableQuantity := max 0 ((p1.stockQuantity : Int) - (p1.reservedQuantity : Int)) }
  preSaveRecompute p2

/-- Embeds `InventoryService.createProduct`: a new document with
`reservedQuantity = 0` and `availableQuantity = stockQuantity`, then
`save()` runs the pre-save hook. -/
def createProductStored (stockQuantity : Nat) : StoredProduct :=
  preSaveRecompute
    { stockQuantity := stockQuantity
      reservedQuantity := 0
      availableQuantity := (stockQuantity : Int)
      reservations := [] }

/-- The derived-field consistency property of the spec's data model. -/
def availConsistent (p : StoredProduct) : Prop :=
  p.availableQuantity = max 0 ((p.stockQuantity : Int) - (p.reservedQuantity : Int))

instance (p : StoredProduct) : Decidable (availConsistent p) := by
  unfold availConsistent
  infer_instance

/-! ## Order state machine (`OrderService`) -/

inductive OrderStatus
  | pending
  | confirmed
  | processing
  | shipped
  | delivered
  | cancelled
deriving DecidableEq, Repr

/-- The `validTransitions` table inside `OrderService.isValidStatusTransition`. -/
def validTransitions : OrderStatus → List OrderStatus
  | .pending => [.confirmed, .cancelled]
  | .confirmed => [.processing, .cancelled]
  | .processing => [.shipped, .cancelled]
  | .shipped => [.delivered]
  | .delivered => []
  | .cancelled => []

/-- Embeds `OrderService.isValidStatusTransition`. -/
def isValidStatusTransition (currentStatus newStatus : OrderStatus) : Bool :=
  (validTransitions currentStatus).contains newStatus

/-- Embeds `OrderService.canCancelOrder`. -/
def canCancelOrder (status : OrderStatus) : Bool :=
  [OrderStatus.pending, OrderStatus.confirmed, OrderStatus.processing].contains status

/-- The fields of an `Order` document that order-status updates and
cancellation touch. -/
structure OrderRec where
  orderId : String
  status : OrderStatus
  cancellationReason : Option String
  cancelledAt : Option Int
deriving DecidableEq, Repr

inductive OrderError
  | notFound (orderId : String)
  | invalidTransition (fromStatus toStatus : OrderStatus)
  | alreadyCancelled (orderId : String)
  | cannotCancel (status : OrderStatus)
deriving DecidableEq, Repr

/-- Saving an order document: the stored collection with the matching
document replaced. -/
def storeSet (store : List OrderRec) (orderId : String) (o : OrderRec) : List OrderRec :=
  store.map (fun x => if x.orderId == orderId then o else x)

/-- Embeds `OrderService.updateOrderStatus`: not-found error,
invalid-transition error (no save), or save the new status and publish
`order.updated`.  Returns the outcome, the stored collection afterwards,
and the list of published event types. -/
def updateOrderStatus (store : List OrderRec) (orderId : String) (newStatus : OrderStatus) :
    Except OrderError OrderRec × List OrderRec × List String :=
  match store.find? (fun o => o.orderId == orderId) with
  | none => (.error (.notFound orderId), store, [])
  | some o =>
    if isValidStatusTransition o.status newStatus then
      let o' := { o with status := newStatus }
      (.ok o', storeSet store orderId o', ["order.updated"])
    else
      (.error (.invalidTransition o.status newStatus), store, [])

/-- Embeds `OrderService.cancelOrder`: not-found error, already-cancelled
error, cannot-cancel error, or save status `cancelled` with the reason and
cancellation timestamp recorded, publishing `order.cancelled`. -/
def cancelOrder (store : List OrderRec) (orderId : String) (reason : Option String)
    (now : Int) : Except OrderError OrderRec × List OrderRec × List String :=
  match store.find? (fun o => o.orderId == orderId) with
  | none => (.error (.notFound orderId), store, [])
  | some o =>
    if o.status = .cancelled then
      (.error (.alreadyCancelled orderId), store, [])
    else if canCancelOrder o.status = false then
      (.error (.cannotCancel o.status), store, [])
    else
      let o' := { o with
        status := .cancelled
        cancellationReason := reason
        cancelledAt := some now }
      (.ok o', storeSet store orderId o', ["order.cancelled"])

/-! ## Message queue manager (`MessageQueueManager`) -/

inductive CloseStep
  | channelClose
  | connectionClose
deriving DecidableEq, Repr

/-- Embeds `MessageQueueManager.close()`: the ordered sequence of `close()`
calls actually issued.  The whole body — channel close, then connection
close — sits inside a single try/catch, so when `channel.close()` rejects,
control transfers to the catch block (which only logs) and the connection
close is never reached.  `channelCloseFails` says whether
`channel.close()` rejects. -/
def mqClose (hasChannel hasConnection channelCloseFails : Bool) : List CloseStep :=
  if hasChannel then
    if channelCloseFails then [.channelClose]
    else .channelClose :: (if hasConnection then [.connectionClose] else [])
  else if hasConnection then [.connectionClose] else []

/-- Models the JS `String.prototype.includes`, as infix of the character
sequences. -/
def jsIncludes (s pat : String) : Bool :=
  decide (pat.toList <:+: s.toList)

/-- A value thrown by a JS handler: either an `Error` object carrying its
`.message`, or any non-`Error` value. -/
inductive JsError
  | errorObj (message : String)
  | nonError
deriving DecidableEq, Repr

/-- The requeue classification in the consumer's catch block:
`!(error instanceof Error && error.message.includes('validation'))`. -/
def shouldRequeue (e : JsError) : Bool :=
  match e with
  | .errorObj message => !(jsIncludes message "validation")
  | .nonError => true

inductive AckAction
  | ack
  | nack (requeue : Bool)
deriving DecidableEq, Repr

/-- The per-message body of `MessageQueueManager.consumeEvents`: parse the
envelope, invoke the handler, acknowledge on success; on any throw from
parsing or the handler, negatively acknowledge with requeue decided by
`shouldRequeue`.  `parsed` is the outcome of `JSON.parse` on the message
content and `handler` the handler's outcome on the parsed event. -/
def consumeStep (parsed : Except JsError α) (handler : α → Except JsError Unit) : AckAction :=
  match parsed with
  | .error e => .nack (shouldRequeue e)
  | .ok ev =>
    match handler ev with
    | .ok _ => .ack
    | .error e => .nack (shouldRequeue e)

/-- The `MessageQueueManager` state relevant to publishing: whether
`connect()` has initialized the channel, and the instance's circuit
breaker (constructed as `new CircuitBreaker(3, 30000, logger)`). -/
structure MQState where
  channelInitialized : Bool
  breaker : CircuitBreakerState
deriving DecidableEq, Repr

/-- A freshly constructed `MessageQueueManager` (before `connect()`). -/
def initMQ : MQState :=
  { channelInitialized := false, breaker := initCB 3 30000 }

/-- The async body `publishEvent` hands to the circuit breaker: throw
`'Channel not initialized'` when the channel is null, else return what
`channel.publish` returned (`publishAccepted`). -/
def publishBody (channelInitialized publishAccepted : Bool) : Except String Bool :=
  if channelInitialized then .ok publishAccepted else .error "Channel not initialized"

/-- Embeds `MessageQueueManager.publishEvent`: the body runs under the
instance's circuit breaker. -/
def publishEvent (m : MQState) (now : Int) (publishAccepted : Bool) :
    CBResult String Bool × MQState :=
  let r := cbExecute m.breaker now (publishBody m.channelInitialized publishAccepted)
  (r.1, { m with breaker := r.2 })

/-! ## Notification processor (`NotificationService`) -/

inductive NStatus
  | pending
  | sent
  | failed
deriving DecidableEq, Repr

/-- The fields of a `Notification` document that retrying touches. -/
structure NotificationRec where
  status : NStatus
  attempts : Nat
deriving DecidableEq, Repr

/-- Embeds `NotificationService.processNotification`: `externalSuccess` is
the outcome of the simulated external delivery call (nondeterministic in
the source).  Success marks the notification sent; failure marks it failed
and increments `attempts`. -/
def processNotification (n : NotificationRec) (externalSuccess : Bool) : NotificationRec :=
  if externalSuccess then { n with status := .sent }
  else { n with status := .failed, attempts := n.attempts + 1 }

/-- Outcome of `NotificationService.retryNotification`: `nullNotFound` is
the `return null` (mapped to a 404 by the controller), the two `err`
constructors are the thrown errors, and `retried` carries the
notification after the reset to pending and the reprocessing. -/
inductive RetryOutcome
  | nullNotFound
  | errOnlyFailedRetriable
  | errMaxAttempts
  | retried (n : NotificationRec)
deriving DecidableEq, Repr

/-- Embeds `NotificationService.retryNotification`: not found → null;
status not `failed` → error; `attempts ≥ 3` → error; else reset status to
pending, save, and reprocess. -/
def retryNotification (found : Option NotificationRec) (externalSuccess : Bool) :
    RetryOutcome :=
  match found with
  | none => .nullNotFound
  | some n =>
    if n.status ≠ .failed then .errOnlyFailedRetriable
    else if 3 ≤ n.attempts then .errMaxAttempts
    else .retried (processNotification { n with status := .pending } externalSuccess)

/-! ## Helper lemmas -/

lemma cbExecute_closed_error (s : CircuitBreakerState) (now : Int) (h : s.status = .CLOSED) :
    cbExecute s now (Except.error () : Except Unit Unit) = (.failed (), onFailure s now) := by
  simp [cbExecute, openGate, h]

lemma onFailure_threshold (s : CircuitBreakerState) (now : Int) :
    (onFailure s now).threshold = s.threshold := by
  simp only [onFailure]
  split <;> rfl

/-- Once the breaker is `OPEN` with `failureCount ≥ threshold`, any further
sequence of failing executes leaves it `OPEN` with `failureCount ≥ threshold`. -/
lemma failMany_open_absorb : ∀ (nows : List Int) (s : CircuitBreakerState),
    s.status = .OPEN → s.threshold ≤ s.failureCount →
    (failMany s nows).status = .OPEN ∧
      (failMany s nows).threshold ≤ (failMany s nows).failureCount ∧
      (failMany s nows).threshold = s.threshold
  | [], s, hst, hcnt => ⟨hst, by simpa using hcnt, rfl⟩
  | t :: rest, s, hst, hcnt => by
    have hstep : failMany s (t :: rest) =
        failMany ((cbExecute s t (Except.error () : Except Unit Unit)).2) rest := rfl
    by_cases hres : shouldAttemptReset s t
    · have hexec : (cbExecute s t (Except.error () : Except Unit Unit)).2 =
          onFailure { s with status := .HALF_OPEN } t := by
        simp [cbExecute, openGate, hst, hres]
      have hopen : (onFailure { s with status := .HALF_OPEN } t).status = .OPEN := by
        simp only [onFailure]
        rw [if_pos (by simpa using Nat.le_succ_of_le hcnt)]
      have hcnt' : (onFailure { s with status := .HALF_OPEN } t).threshold ≤
          (onFailure { s with status := .HALF_OPEN } t).failureCount := by
        simp only [onFailure]
        rw [if_pos (by simpa using Nat.le_succ_of_le hcnt)]
        simpa using Nat.le_succ_of_le hcnt
      have hth : (onFailure { s with status := .HALF_OPEN } t).threshold = s.threshold := by
        simpa using onFailure_threshold { s with status := .HALF_OPEN } t
      have ih := failMany_open_absorb rest (onFailure { s with status := .HALF_OPEN } t)
        hopen (hth ▸ hcnt')
      rw [hstep, hexec]
      exact ⟨ih.1, ih.2.1, by rw [ih.2.2, hth]⟩
    · have hexec : (cbExecute s t (Except.error () : Except Unit Unit)).2 = s := by
        simp [cbExecute, openGate, hst, hres]
      rw [hstep, hexec]
      exact failMany_open_absorb rest s hst hcnt

/-- From a `CLOSED` state, enough consecutive failing executes open the circuit. -/
lemma failMany_opens : ∀ (nows : List Int) (s : CircuitBreakerState),
    s.status = .CLOSED → s.threshold ≤ s.failureCount + nows.length → nows ≠ [] →
    (failMany s nows).status = .OPEN
  | [], _, _, _, hne => absurd rfl hne
  | t :: rest, s, hst, hcnt, _ => by
    have hstep : failMany s (t :: rest) = failMany (onFailure s t) rest := by
      show (failMany ((cbExecute s t (Except.error () : Except Unit Unit)).2) rest) = _
      rw [cbExecute_closed_error s t hst]
    rw [hstep]
    by_cases hth : s.threshold ≤ s.failureCount + 1
    · have hopen : (onFailure s t).status = .OPEN := by
        simp only [onFailure]
        rw [if_pos (by simpa using hth)]
      have hcnt' : (onFailure s t).threshold ≤ (onFailure s t).failureCount := by
        simp only [onFailure]
        rw [if_pos (by simpa using hth)]
        simpa using hth
      exact (failMany_open_absorb rest (onFailure s t) hopen hcnt').1
    · have hclosed : (onFailure s t).status = .CLOSED := by
        simp only [onFailure]
        rw [if_neg (by simpa using hth)]
        exact hst
      have hcount : (onFailure s t).failureCount = s.failureCount + 1 := by
        simp only [onFailure]
        split <;> rfl
      have hth' : (onFailure s t).threshold = s.threshold := onFailure_threshold s t
      have hrest : rest ≠ [] := by
        intro hnil
        subst hnil
        simp at hcnt
        omega
      refine failMany_opens rest (onFailure s t) hclosed ?_ hrest
      rw [hcount, hth']
      simp only [List.length_cons] at hcnt
      omega

lemma find?_storeSet (store : List OrderRec) (orderId : String) (o o' : OrderRec)
    (hfind : store.find? (fun x => x.orderId == orderId) = some o)
    (hid : o'.orderId = o.orderId) :
    (storeSet store orderId o').find? (fun x => x.orderId == orderId) = some o' := by
  induction store with
  | nil => simp at hfind
  | cons x rest ih =>
    by_cases hx : x.orderId = orderId
    · have hxo : o = x := by
        simp [List.find?_cons, hx] at hfind
        exact hfind.symm
      have ho' : o'.orderId = orderId := by rw [hid, hxo, hx]
      simp [storeSet, List.find?_cons, hx, ho']
    · have hbx : (x.orderId == orderId) = false := by simpa using hx
      rw [List.find?_cons, hbx] at hfind
      have hrest := ih hfind
      simp only [storeSet, List.map_cons] at hrest ⊢
      rw [if_neg (by simp [hbx]), List.find?_cons, hbx]
      exact hrest

/-! ## Claim theorems -/

/-- C1: a circuit breaker with failure threshold `t` starting `CLOSED` is
`OPEN` after `t` consecutive failing executes; while `OPEN` with less than
`timeout` ms elapsed since the last failure, `execute` rejects with the
"circuit open" error, returning the state unchanged and never invoking the
wrapped operation; while `OPEN` with at least `timeout` ms elapsed, the
state moves to `HALF_OPEN` before the operation runs, after which a success
yields `CLOSED` with `failureCount = 0` and a failure (from a reachable
`OPEN` state, i.e. one with `failureCount ≥ threshold`) yields `OPEN` with
`failureCount` one above its pre-`HALF_OPEN` value; and every execute whose
result is the operation's success leaves `CLOSED` with `failureCount = 0`. -/
theorem c1_circuit_breaker_transitions :
    (∀ (t m : Nat) (nows : List Int), 0 < t → nows.length = t →
      (failMany (initCB t m) nows).status = .OPEN)
    ∧ (∀ (ε α : Type) (s : CircuitBreakerState) (now : Int) (op : Except ε α),
      s.status = .OPEN → now - s.lastFailureTime < (s.timeout : Int) →
      cbExecute s now op = (.rejected, s))
    ∧ (∀ (s : CircuitBreakerState) (now : Int),
      s.status = .OPEN → (s.timeout : Int) ≤ now - s.lastFailureTime →
      openGate s now = some { s with status := .HALF_OPEN }
      ∧ cbExecute s now (Except.ok () : Except Unit Unit) =
          (.ok (), { s with status := .CLOSED, failureCount := 0 })
      ∧ (s.threshold ≤ s.failureCount →
          (cbExecute s now (Except.error () : Except Unit Unit)).2.status = .OPEN
          ∧ (cbExecute s now (Except.error () : Except Unit Unit)).2.failureCount =
              s.failureCount + 1))
    ∧ (∀ (s : CircuitBreakerState) (now : Int),
      (cbExecute s now (Except.ok () : Except Unit Unit)).1 = .ok () →
      (cbExecute s now (Except.ok () : Except Unit Unit)).2.status = .CLOSED
      ∧ (cbExecute s now (Except.ok () : Except Unit Unit)).2.failureCount = 0) := by
  refine ⟨?_, ?_, ?_, ?_⟩
  · intro t m nows ht hlen
    refine failMany_opens nows (initCB t m) rfl ?_ ?_
    · simp [initCB, hlen]
    · intro hnil
      rw [hnil] at hlen
      simp at hlen
      omega
  · intro ε α s now op hst helapsed
    have hres : ¬ shouldAttemptReset s now := by
      simp only [shouldAttemptReset]
      simpa using not_le.mpr helapsed
    simp [cbExecute, openGate, hst, hres]
  · intro s now hst helapsed
    have hres : shouldAttemptReset s now := by
      simp only [shouldAttemptReset]
      simpa using helapsed
    refine ⟨by simp [openGate, hst, hres], ?_, ?_⟩
    · simp [cbExecute, openGate, hst, hres, onSuccess]
    · intro hcnt
      have hexec : (cbExecute s now (Except.error () : Except Unit Unit)).2 =
          onFailure { s with status := .HALF_OPEN } now := by
        simp [cbExecute, openGate, hst, hres]
      rw [hexec]
      constructor
      · simp only [onFailure]
        rw [if_pos (by simpa using Nat.le_succ_of_le hcnt)]
      · simp only [onFailure]
        split <;> rfl
  · intro s now hok
    rcases hgate : openGate s now with _ | s'
    · rw [cbExecute, hgate] at hok
      exact absurd hok (by simp)
    · constructor <;> · rw [cbExecute, hgate]; rfl

/-- Witness for `c1_circuit_breaker_transitions` at concrete inputs:
threshold 3, timeout 60000 ms, failures at times 1, 2, 3 ms. -/
theorem c1_circuit_breaker_transitions_witness :
    (failMany (initCB 3 60000) [1, 2, 3]).status = .OPEN
    ∧ cbExecute (failMany (initCB 3 60000) [1, 2, 3]) 50 (Except.ok () : Except Unit Unit)
        = (.rejected, failMany (initCB 3 60000) [1, 2, 3])
    ∧ cbExecute (failMany (initCB 3 60000) [1, 2, 3]) 60003 (Except.ok () : Except Unit Unit)
        = (.ok (), { failMany (initCB 3 60000) [1, 2, 3] with
            status := .CLOSED, failureCount := 0 }) := by
  refine ⟨?_, ?_, ?_⟩
  · exact c1_circuit_breaker_transitions.1 3 60000 [1, 2, 3] (by decide) (by decide)
  · exact c1_circuit_breaker_transitions.2.1 Unit Unit (failMany (initCB 3 60000) [1, 2, 3])
      50 (Except.ok ()) (by decide) (by decide)
  · exact (c1_circuit_breaker_transitions.2.2.1 (failMany (initCB 3 60000) [1, 2, 3])
      60003 (by decide) (by decide)).2.1

/-- C2: `RetryHandler` with `backoffMs = 1000`, `jitter = false`,
`maxAttempts = 3` and an always-failing operation sleeps exactly 1000 ms
before the second attempt and 2000 ms before the third, each delay equal to
`min (backoffMs * 2^(attempt-1) * jitterFactor) maxBackoffMs` with jitter
factor 1, and the final error message is
`"Operation failed " ++ "after 3 attempts" ++ (": " ++ last error text)`,
so it contains both `"after 3 attempts"` and the last underlying error's
message. -/
theorem c2_retry_backoff_delays_and_error :
    ∀ (msg : Nat → String) (rand : Nat → ℚ),
      (retryExecute (⟨3, 1000, 10000, false⟩ : RetryConfig)
            (fun n => (Except.error (msg n) : Except String Unit)) rand).2
        = [1000, 2000]
      ∧ (retryExecute (⟨3, 1000, 10000, false⟩ : RetryConfig)
            (fun n => (Except.error (msg n) : Except String Unit)) rand).2
        = [min ((1000 : ℚ) * 2 ^ (1 - 1) * 1) 10000, min ((1000 : ℚ) * 2 ^ (2 - 1) * 1) 10000]
      ∧ (retryExecute (⟨3, 1000, 10000, false⟩ : RetryConfig)
            (fun n => (Except.error (msg n) : Except String Unit)) rand).1
        = Except.error ("Operation failed " ++ "after 3 attempts" ++ (": " ++ msg 3)) := by
  intro msg rand
  have hmsg : ("Operation failed after " ++ toString (3 : Nat) ++ " attempts: " : String)
      = "Operation failed " ++ "after 3 attempts" ++ ": " := by decide
  have hrun : retryExecute (⟨3, 1000, 10000, false⟩ : RetryConfig)
      (fun n => (Except.error (msg n) : Except String Unit)) rand
      = (Except.error ("Operation failed after " ++ toString (3 : Nat) ++ " attempts: "
            ++ msg 3), [1000, 2000]) := by
    simp only [retryExecute, retryGo, calculateDelay]
    norm_num
  refine ⟨?_, ?_, ?_⟩
  · simp only [hrun]
  · simp only [hrun]; norm_num
  · simp only [hrun]
    rw [show ("Operation failed after " ++ toString (3 : Nat) ++ " attempts: " ++ msg 3 : String)
          = ("Operation failed after " ++ toString (3 : Nat) ++ " attempts: ") ++ msg 3 from rfl,
        hmsg, String.append_assoc]

/-- C3: for a found, active product, `reserveInventory` returns `false`
and leaves `reservedQuantity` and the reservation records (and stock)
unchanged when the requested quantity exceeds `availableQuantity`;
otherwise it returns `true`, increments `reservedQuantity` by exactly the
requested quantity, and appends the single reservation entry
`{orderId, quantity, reservedAt}`; the service wrapper passes this
through for an active product. -/
theorem c3_reserve_inventory_guard :
    ∀ (p : Product) (q : Nat) (oid : String) (now : Int),
      (availableQuantity p < (q : Int) →
        reserveInventory p q oid now = (false, p))
      ∧ ((q : Int) ≤ availableQuantity p →
        reserveInventory p q oid now =
          (true, { p with
            reservedQuantity := p.reservedQuantity + q
            reservations := p.reservations ++ [⟨oid, q, now⟩] }))
      ∧ (p.isActive = true →
        svcReserveInventory (some p) q oid now =
          .ok ((reserveInventory p q oid now).1, (reserveInventory p q oid now).2,
            if (reserveInventory p q oid now).1 then ["inventory.reserved"] else [])) := by
  intro p q oid now
  refine ⟨?_, ?_, ?_⟩
  · intro h
    simp [reserveInventory, h]
  · intro h
    simp [reserveInventory, not_lt.mpr h]
  · intro h
    simp [svcReserveInventory, h]

/-- Witness for `c3_reserve_inventory_guard`: a product with stock 10 and
8 reserved refuses a request for 5 and accepts a request for 2. -/
theorem c3_reserve_inventory_guard_witness :
    reserveInventory ⟨10, 8, true, []⟩ 5 "order-1" 7 = (false, ⟨10, 8, true, []⟩)
    ∧ reserveInventory ⟨10, 8, true, []⟩ 2 "order-1" 7 =
        (true, ⟨10, 10, true, [⟨"order-1", 2, 7⟩]⟩)
    ∧ svcReserveInventory (some ⟨10, 8, true, []⟩) 5 "order-1" 7 =
        .ok (false, ⟨10, 8, true, []⟩, []) := by
  refine ⟨?_, ?_, ?_⟩
  · exact (c3_reserve_inventory_guard ⟨10, 8, true, []⟩ 5 "order-1" 7).1 (by decide)
  · have h := (c3_reserve_inventory_guard ⟨10, 8, true, []⟩ 2 "order-1" 7).2.1 (by decide)
    simpa using h
  · have h := (c3_reserve_inventory_guard ⟨10, 8, true, []⟩ 5 "order-1" 7).2.2 rfl
    rw [h]
    have h1 := (c3_reserve_inventory_guard ⟨10, 8, true, []⟩ 5 "order-1" 7).1 (by decide)
    rw [h1]
    rfl

/-- C4: every inventory write path leaves the stored `availableQuantity`
equal to `max 0 (stockQuantity - reservedQuantity)`: `createProduct`
establishes it, and `reserveInventory` (given a consistent input state,
since its refusing branch performs no write), `releaseInventory` and
`updateStock` preserve it.  In the virtual-field schema variant the same
property holds definitionally of the `availableQuantity` accessor. -/
theorem c4_available_quantity_consistent :
    ∀ (p : StoredProduct) (q : Nat) (oid : String) (now : Int) (nq : Int) (stock : Nat),
      availConsistent (createProductStored stock)
      ∧ (availConsistent p → availConsistent (reserveInventoryStored p q oid now).2)
      ∧ availConsistent (releaseInventoryStored p q oid)
      ∧ availConsistent (updateStockStored p nq) := by
  intro p q oid now nq stock
  refine ⟨rfl, ?_, rfl, rfl⟩
  intro hp
  by_cases h : p.availableQuantity < (q : Int)
  · simpa [reserveInventoryStored, h] using hp
  · simp [reserveInventoryStored, h, preSaveRecompute, availConsistent]

/-- Witness for `c4_available_quantity_consistent`: stock 10, 3 reserved,
consistent stored value 7; all four operations leave the field consistent. -/
theorem c4_available_quantity_consistent_witness :
    availConsistent (createProductStored 10)
    ∧ availConsistent (reserveInventoryStored ⟨10, 3, 7, []⟩ 2 "order-1" 5).2
    ∧ availConsistent (releaseInventoryStored ⟨10, 3, 7, []⟩ 2 "order-1")
    ∧ availConsistent (updateStockStored ⟨10, 3, 7, []⟩ 4) := by
  have h := c4_available_quantity_consistent ⟨10, 3, 7, []⟩ 2 "order-1" 5 4 10
  exact ⟨h.1, h.2.1 (by decide), h.2.2.1, h.2.2.2⟩

/-- C5: the transition table is exactly
pending → {confirmed, cancelled}, confirmed → {processing, cancelled},
processing → {shipped, cancelled}, shipped → {delivered},
delivered → {}, cancelled → {}; for a stored order, `updateOrderStatus`
to a status in the current status's allowed set persists the new status
(the updated document is what the store returns afterwards) and publishes
exactly `order.updated`, while for any status outside the set it returns
an invalid-transition error, publishes nothing, and leaves the store
unchanged. -/
theorem c5_update_order_status :
    (validTransitions .pending = [.confirmed, .cancelled]
      ∧ validTransitions .confirmed = [.processing, .cancelled]
      ∧ validTransitions .processing = [.shipped, .cancelled]
      ∧ validTransitions .shipped = [.delivered]
      ∧ validTransitions .delivered = []
      ∧ validTransitions .cancelled = [])
    ∧ ∀ (store : List OrderRec) (orderId : String) (newStatus : OrderStatus) (o : OrderRec),
      store.find? (fun x => x.orderId == orderId) = some o →
      (isValidStatusTransition o.status newStatus = true →
        updateOrderStatus store orderId newStatus =
          (.ok { o with status := newStatus },
            storeSet store orderId { o with status := newStatus }, ["order.updated"])
        ∧ (storeSet store orderId { o with status := newStatus }).find?
            (fun x => x.orderId == orderId) = some { o with status := newStatus })
      ∧ (isValidStatusTransition o.status newStatus = false →
        updateOrderStatus store orderId newStatus =
          (.error (.invalidTransition o.status newStatus), store, [])) := by
  refine ⟨⟨rfl, rfl, rfl, rfl, rfl, rfl⟩, ?_⟩
  intro store orderId newStatus o hfind
  constructor
  · intro hvalid
    constructor
    · simp [updateOrderStatus, hfind, hvalid]
    · exact find?_storeSet store orderId o _ hfind rfl
  · intro hinvalid
    simp [updateOrderStatus, hfind, hinvalid]

/-- Witness for `c5_update_order_status`: a pending order accepts
`confirmed` and rejects `delivered`. -/
theorem c5_update_order_status_witness :
    updateOrderStatus [⟨"o1", .pending, none, none⟩] "o1" .confirmed =
      (.ok ⟨"o1", .confirmed, none, none⟩,
        [⟨"o1", .confirmed, none, none⟩], ["order.updated"])
    ∧ updateOrderStatus [⟨"o1", .pending, none, none⟩] "o1" .delivered =
      (.error (.invalidTransition .pending .delivered),
        [⟨"o1", .pending, none, none⟩], []) := by
  constructor
  · have h := ((c5_update_order_status.2 [⟨"o1", .pending, none, none⟩] "o1" .confirmed
      ⟨"o1", .pending, none, none⟩ (by decide)).1 (by decide)).1
    rw [h]
    rfl
  · exact (c5_update_order_status.2 [⟨"o1", .pending, none, none⟩] "o1" .delivered
      ⟨"o1", .pending, none, none⟩ (by decide)).2 (by decide)

/-- C6: for a stored order, `cancelOrder` fails with the already-cancelled
error when the status is `cancelled`, fails with the cannot-cancel error
when the status is `shipped` or `delivered` (leaving the store unchanged
and publishing nothing in both failing cases), and for `pending`,
`confirmed` or `processing` it saves the order with status `cancelled`,
the reason and the cancellation timestamp recorded, publishing exactly
`order.cancelled`. -/
theorem c6_cancel_order :
    ∀ (store : List OrderRec) (orderId : String) (reason : Option String) (now : Int)
      (o : OrderRec),
      store.find? (fun x => x.orderId == orderId) = some o →
      (o.status = .cancelled →
        cancelOrder store orderId reason now = (.error (.alreadyCancelled orderId), store, []))
      ∧ (o.status = .shipped ∨ o.status = .delivered →
        cancelOrder store orderId reason now = (.error (.cannotCancel o.status), store, []))
      ∧ (o.status = .pending ∨ o.status = .confirmed ∨ o.status = .processing →
        cancelOrder store orderId reason now =
          (.ok { o with status := .cancelled, cancellationReason := reason, cancelledAt := some now },
            storeSet store orderId { o with status := .cancelled, cancellationReason := reason, cancelledAt := some now },
            ["order.cancelled"])) := by
  intro store orderId reason now o hfind
  refine ⟨?_, ?_, ?_⟩
  · intro hst
    simp [cancelOrder, hfind, hst]
  · intro hst
    rcases hst with hst | hst <;>
      simp [cancelOrder, hfind, hst, canCancelOrder]
  · intro hst
    rcases hst with hst | hst | hst <;>
      simp [cancelOrder, hfind, hst, canCancelOrder]

/-- Witness for `c6_cancel_order` on three concrete one-order stores:
already cancelled, shipped, and processing. -/
theorem c6_cancel_order_witness :
    cancelOrder [⟨"o1", .cancelled, none, none⟩] "o1" (some "why") 9 =
      (.error (.alreadyCancelled "o1"), [⟨"o1", .cancelled, none, none⟩], [])
    ∧ cancelOrder [⟨"o2", .shipped, none, none⟩] "o2" none 9 =
      (.error (.cannotCancel .shipped), [⟨"o2", .shipped, none, none⟩], [])
    ∧ cancelOrder [⟨"o3", .processing, none, none⟩] "o3" (some "why") 9 =
      (.ok ⟨"o3", .cancelled, some "why", some 9⟩,
        [⟨"o3", .cancelled, some "why", some 9⟩], ["order.cancelled"]) := by
  refine ⟨?_, ?_, ?_⟩
  · exact (c6_cancel_order [⟨"o1", .cancelled, none, none⟩] "o1" (some "why") 9
      ⟨"o1", .cancelled, none, none⟩ (by decide)).1 rfl
  · exact (c6_cancel_order [⟨"o2", .shipped, none, none⟩] "o2" none 9
      ⟨"o2", .shipped, none, none⟩ (by decide)).2.1 (Or.inl rfl)
  · have h := (c6_cancel_order [⟨"o3", .processing, none, none⟩] "o3" (some "why") 9
      ⟨"o3", .processing, none, none⟩ (by decide)).2.2 (Or.inr (Or.inr rfl))
    rw [h]
    rfl

/-- C7 (divergence): with both a channel and a connection present, a
failing `channel.close()` makes `close()` issue only the channel close —
the connection close is NOT attempted, because the single try/catch
wrapping both closes transfers control to the catch block.  This
contradicts the claim (and the repository's own MessageQueueManager test,
which expects `connection.close` to still be called). -/
theorem c7_channel_close_failure_skips_connection_close :
    mqClose true true true = [CloseStep.channelClose]
    ∧ CloseStep.connectionClose ∉ mqClose true true true
    ∧ mqClose true true false = [CloseStep.channelClose, CloseStep.connectionClose] := by
  decide

/-- C8: for every delivered message, a successful handler run leads to an
ack; a throw from the handler (or from envelope parsing) leads to a nack
whose requeue flag is `true` unless the thrown value is an `Error` whose
message contains `"validation"`, in which case it is `false`. -/
theorem c8_consume_ack_nack_requeue :
    ∀ (α : Type) (parsed : Except JsError α) (handler : α → Except JsError Unit),
      (∀ ev, parsed = .ok ev → handler ev = .ok () →
        consumeStep parsed handler = .ack)
      ∧ (∀ ev e, parsed = .ok ev → handler ev = .error e →
        consumeStep parsed handler = .nack (shouldRequeue e))
      ∧ (∀ e, parsed = .error e →
        consumeStep parsed handler = .nack (shouldRequeue e))
      ∧ (∀ e, shouldRequeue e = false ↔
        ∃ m, e = .errorObj m ∧ jsIncludes m "validation" = true) := by
  intro α parsed handler
  refine ⟨?_, ?_, ?_, ?_⟩
  · intro ev hp hh
    simp [consumeStep, hp, hh]
  · intro ev e hp hh
    simp [consumeStep, hp, hh]
  · intro e hp
    simp [consumeStep, hp]
  · intro e
    cases e with
    | errorObj m => simp [shouldRequeue]
    | nonError => simp [shouldRequeue]

/-- Witness for `c8_consume_ack_nack_requeue`: a handler throwing a
validation-marked `Error` is nacked without requeue; one throwing an
unmarked `Error` is nacked with requeue; a successful one is acked. -/
theorem c8_consume_ack_nack_requeue_witness :
    consumeStep (Except.ok ())
      (fun _ => Except.error (.errorObj "validation: bad event")) = .nack false
    ∧ consumeStep (Except.ok ())
      (fun _ => Except.error (.errorObj "boom")) = .nack true
    ∧ consumeStep (Except.ok ()) (fun _ => Except.ok ()) = .ack := by
  refine ⟨?_, ?_, ?_⟩
  · have h := (c8_consume_ack_nack_requeue Unit (Except.ok ())
      (fun _ => Except.error (.errorObj "validation: bad event"))).2.1
      () (.errorObj "validation: bad event") rfl rfl
    rw [h]
    decide
  · have h := (c8_consume_ack_nack_requeue Unit (Except.ok ())
      (fun _ => Except.error (.errorObj "boom"))).2.1 () (.errorObj "boom") rfl rfl
    rw [h]
    decide
  · exact (c8_consume_ack_nack_requeue Unit (Except.ok ())
      (fun _ => Except.ok ())).1 () rfl rfl

/-- C9: `retryNotification` fails (returns null) when the notification is
not found, fails when its status is not `failed`, fails when `attempts ≥ 3`,
and otherwise resets the status to pending and reprocesses. -/
theorem c9_retry_notification_guards :
    ∀ (n : NotificationRec) (s : Bool),
      retryNotification none s = .nullNotFound
      ∧ (n.status ≠ .failed → retryNotification (some n) s = .errOnlyFailedRetriable)
      ∧ (n.status = .failed → 3 ≤ n.attempts →
        retryNotification (some n) s = .errMaxAttempts)
      ∧ (n.status = .failed → n.attempts < 3 →
        retryNotification (some n) s =
          .retried (processNotification { n with status := .pending } s)) := by
  intro n s
  refine ⟨rfl, ?_, ?_, ?_⟩
  · intro h
    simp [retryNotification, h]
  · intro h hcnt
    simp [retryNotification, h, hcnt]
  · intro h hcnt
    simp [retryNotification, h, Nat.not_le.mpr hcnt]

/-- Witness for `c9_retry_notification_guards`: a sent notification cannot
be retried, a failed one with 3 attempts cannot, and a failed one with 2
attempts is reset and reprocessed. -/
theorem c9_retry_notification_guards_witness :
    retryNotification (some ⟨.sent, 0⟩) true = .errOnlyFailedRetriable
    ∧ retryNotification (some ⟨.failed, 3⟩) true = .errMaxAttempts
    ∧ retryNotification (some ⟨.failed, 2⟩) true = .retried ⟨.sent, 2⟩
    ∧ retryNotification (some ⟨.failed, 2⟩) false = .retried ⟨.failed, 3⟩ := by
  refine ⟨?_, ?_, ?_, ?_⟩
  · exact (c9_retry_notification_guards ⟨.sent, 0⟩ true).2.1 (by decide)
  · exact (c9_retry_notification_guards ⟨.failed, 3⟩ true).2.2.1 rfl (by decide)
  · have h := (c9_retry_notification_guards ⟨.failed, 2⟩ true).2.2.2 rfl (by decide)
    rw [h]
    decide
  · have h := (c9_retry_notification_guards ⟨.failed, 2⟩ false).2.2.2 rfl (by decide)
    rw [h]
    decide

/-- C10: on a fresh manager whose channel was never initialized, each of
three consecutive `publishEvent` calls rethrows the body's
`'Channel not initialized'` error and is counted as a breaker failure;
after the third the breaker (threshold 3, timeout 30000 ms) is `OPEN` with
`lastFailureTime` the time of the third call, and any `publishEvent` on an
open-breaker state less than 30000 ms after its last failure returns the
"circuit open" rejection with the state unchanged — the publish body is
never evaluated, its would-be outcome being irrelevant. -/
theorem c10_publish_uninitialized_opens_breaker :
    ∀ (t1 t2 t3 : Int) (b1 b2 b3 : Bool),
      (publishEvent initMQ t1 b1).1 = .failed "Channel not initialized"
      ∧ (publishEvent (publishEvent initMQ t1 b1).2 t2 b2).1 =
          .failed "Channel not initialized"
      ∧ (publishEvent (publishEvent (publishEvent initMQ t1 b1).2 t2 b2).2 t3 b3).1 =
          .failed "Channel not initialized"
      ∧ (publishEvent (publishEvent (publishEvent initMQ t1 b1).2 t2 b2).2 t3 b3).2.breaker =
          { status := .OPEN, failureCount := 3, lastFailureTime := t3,
            threshold := 3, timeout := 30000 }
      ∧ (∀ (m : MQState) (now : Int) (b : Bool),
          m.breaker.status = .OPEN →
          now - m.breaker.lastFailureTime < (m.breaker.timeout : Int) →
          publishEvent m now b = (.rejected, m)) := by
  intro t1 t2 t3 b1 b2 b3
  have e1 : publishEvent initMQ t1 b1 =
      (.failed "Channel not initialized", ⟨false, ⟨.CLOSED, 1, t1, 3, 30000⟩⟩) := by
    simp [publishEvent, publishBody, cbExecute, openGate, onFailure, initMQ, initCB]
  have e2 : publishEvent (⟨false, ⟨.CLOSED, 1, t1, 3, 30000⟩⟩ : MQState) t2 b2 =
      (.failed "Channel not initialized", ⟨false, ⟨.CLOSED, 2, t2, 3, 30000⟩⟩) := by
    simp [publishEvent, publishBody, cbExecute, openGate, onFailure]
  have e3 : publishEvent (⟨false, ⟨.CLOSED, 2, t2, 3, 30000⟩⟩ : MQState) t3 b3 =
      (.failed "Channel not initialized", ⟨false, ⟨.OPEN, 3, t3, 3, 30000⟩⟩) := by
    simp [publishEvent, publishBody, cbExecute, openGate, onFailure]
  refine ⟨?_, ?_, ?_, ?_, ?_⟩
  · simp [e1]
  · simp [e1, e2]
  · simp [e1, e2, e3]
  · simp [e1, e2, e3]
  · intro m now b hst helapsed
    have hres : ¬ shouldAttemptReset m.breaker now := by
      simp only [shouldAttemptReset]
      simpa using not_le.mpr helapsed
    simp [publishEvent, cbExecute, openGate, hst, hres]

/-- Witness for `c10_publish_uninitialized_opens_breaker`: the state after
three failed publishes at times 1, 2, 3 rejects a publish at time 200. -/
theorem c10_publish_uninitialized_opens_breaker_witness :
    publishEvent (⟨false, ⟨.OPEN, 3, 3, 3, 30000⟩⟩ : MQState) 200 true =
      (.rejected, ⟨false, ⟨.OPEN, 3, 3, 3, 30000⟩⟩) :=
  (c10_publish_uninitialized_opens_breaker 1 2 3 false false false).2.2.2.2
    ⟨false, ⟨.OPEN, 3, 3, 3, 30000⟩⟩ 200 true rfl (by decide)

end ECommerce
